import Mathlib

/-!
Shallow embedding of the plane-battle game simulation (the React/canvas
component) and of its high-score HTTP store, with theorems checking the
specification's claims against the code.

Numeric values (JS numbers) are modelled as rationals `ℚ`; the stream of
`Math.random()` draws is modelled as an explicit list of rationals that is
consumed from the front (an exhausted list yields `0`, a legitimate draw).
Entity collections are Lean lists; the JS `Array.filter`-with-side-effects
passes become explicit left folds that rebuild the surviving list in order.
-/

/-- Game state: `'start' | 'playing' | 'paused' | 'gameover'`. -/
inductive GState where
  | start
  | playing
  | paused
  | gameover
deriving DecidableEq, Repr

/-- Enemy variant: `'small' | 'medium' | 'large'`. -/
inductive EType where
  | small
  | medium
  | large
deriving DecidableEq, Repr

/-- Power-up variant: `'size' | 'rate' | 'count'`. -/
inductive PUType where
  | size
  | rate
  | count
deriving DecidableEq, Repr

/-- Canvas width constant (`CANVAS_WIDTH = 600`). -/
def CANVAS_WIDTH : ℚ := 600

/-- Canvas height constant (`CANVAS_HEIGHT = 800`). -/
def CANVAS_HEIGHT : ℚ := 800

/-- An axis-aligned rectangle (position of top-left corner plus size). -/
structure Rect where
  x : ℚ
  y : ℚ
  w : ℚ
  h : ℚ
deriving DecidableEq, Repr

/-- The AABB overlap test used (inlined three times) in `updateGame`:
`A.x < B.x + B.w && A.x + A.w > B.x && A.y < B.y + B.h && A.y + A.h > B.y`. -/
def Rect.intersects (a b : Rect) : Prop :=
  a.x < b.x + b.w ∧ a.x + a.w > b.x ∧ a.y < b.y + b.h ∧ a.y + a.h > b.y

instance (a b : Rect) : Decidable (a.intersects b) := by
  unfold Rect.intersects; infer_instance

/-- The player craft (interface `Player`). -/
structure Player where
  x : ℚ
  y : ℚ
  width : ℚ
  height : ℚ
  speed : ℚ
  health : ℚ
  maxHealth : ℚ
  bulletSize : ℚ
  fireRate : ℚ
  bulletCount : ℕ
  lastShot : ℚ
deriving DecidableEq, Repr

/-- Bounding rectangle of the player. -/
def Player.rect (p : Player) : Rect := ⟨p.x, p.y, p.width, p.height⟩

/-- A projectile (interface `Bullet`). -/
structure Bullet where
  x : ℚ
  y : ℚ
  width : ℚ
  height : ℚ
  speed : ℚ
  damage : ℚ
  size : ℚ
deriving DecidableEq, Repr

/-- Bounding rectangle of a bullet. -/
def Bullet.rect (b : Bullet) : Rect := ⟨b.x, b.y, b.width, b.height⟩

/-- An adversary (interface `Enemy`). -/
structure Enemy where
  x : ℚ
  y : ℚ
  width : ℚ
  height : ℚ
  speed : ℚ
  health : ℚ
  maxHealth : ℚ
  etype : EType
deriving DecidableEq, Repr

/-- Bounding rectangle of an enemy. -/
def Enemy.rect (e : Enemy) : Rect := ⟨e.x, e.y, e.width, e.height⟩

/-- A power-up item (interface `PowerUp`). -/
structure PowerUp where
  x : ℚ
  y : ℚ
  width : ℚ
  height : ℚ
  speed : ℚ
  ptype : PUType
deriving DecidableEq, Repr

/-- Bounding rectangle of a power-up. -/
def PowerUp.rect (pu : PowerUp) : Rect := ⟨pu.x, pu.y, pu.width, pu.height⟩

/-- An explosion effect (interface `Explosion`). -/
structure Explosion where
  x : ℚ
  y : ℚ
  radius : ℚ
  maxRadius : ℚ
  opacity : ℚ
deriving DecidableEq, Repr

/-- The `Math.random()` stream, explicit: drawing from an empty list yields
`0` (one particular legal draw), otherwise head and tail. -/
def nextRoll : List ℚ → ℚ × List ℚ
  | [] => (0, [])
  | r :: rs => (r, rs)

/-- The power-up type table `['size', 'rate', 'count']`. -/
def puTypes : List PUType := [.size, .rate, .count]

/-- `types[Math.floor(r * 3)]` (totalised with a default that is never used
for draws in `[0,1)`). -/
def puTypeOfRoll (r : ℚ) : PUType :=
  (puTypes.get? (Int.floor (r * 3)).toNat).getD .size

/-- `spawnPowerUp(x, y)`: rolls the 30 % chance (`Math.random() > 0.3` means
no spawn), then the variant, and pushes a 40×40 power-up at `(x − 20, y)`
falling at speed 2.  Returns the updated power-up pool and random stream. -/
def spawnPowerUp (x y : ℚ) (rng : List ℚ) (pus : List PowerUp) :
    List PowerUp × List ℚ :=
  let d1 := nextRoll rng
  if d1.1 > 3/10 then (pus, d1.2)
  else
    let d2 := nextRoll d1.2
    (pus ++ [{ x := x - 20, y := y, width := 40, height := 40, speed := 2,
               ptype := puTypeOfRoll d2.1 }], d2.2)

/-- `spawnEnemy()`: variant roll (`< 0.6` small, `< 0.9` medium, else large),
then horizontal-position roll, then (for small/medium) a speed roll. -/
def spawnEnemy (rng : List ℚ) : Enemy × List ℚ :=
  let dt := nextRoll rng
  if dt.1 < 6/10 then
    let dx := nextRoll dt.2
    let ds := nextRoll dx.2
    ({ x := dx.1 * (CANVAS_WIDTH - 40), y := -40, width := 40, height := 40,
       speed := 2 + ds.1 * (3/2), health := 20, maxHealth := 20,
       etype := .small }, ds.2)
  else if dt.1 < 9/10 then
    let dx := nextRoll dt.2
    let ds := nextRoll dx.2
    ({ x := dx.1 * (CANVAS_WIDTH - 60), y := -60, width := 60, height := 60,
       speed := 3/2 + ds.1 * (1/2), health := 40, maxHealth := 40,
       etype := .medium }, ds.2)
  else
    let dx := nextRoll dt.2
    ({ x := dx.1 * (CANVAS_WIDTH - 80), y := -80, width := 80, height := 80,
       speed := 1, health := 80, maxHealth := 80, etype := .large }, dx.2)

/-- `shootBullet(timestamp)`: gated on
`timestamp - player.lastShot < player.fireRate`; on success sets
`lastShot = timestamp` and pushes `bulletCount` bullets of width
`6·bulletSize`, height `12·bulletSize`, damage `10·bulletSize`, laid out
from `startX` with `1.5·width` spacing. -/
def shootBullet (timestamp : ℚ) (p : Player) (bullets : List Bullet) :
    Player × List Bullet :=
  if timestamp - p.lastShot < p.fireRate then (p, bullets)
  else
    let bulletWidth := 6 * p.bulletSize
    let bulletHeight := 12 * p.bulletSize
    let totalWidth := (p.bulletCount : ℚ) * bulletWidth
    let startX := p.x + p.width / 2 - totalWidth / 2 + bulletWidth / 2
    ({ p with lastShot := timestamp },
     bullets ++ (List.range p.bulletCount).map (fun i =>
       { x := startX + (i : ℚ) * bulletWidth * (3/2), y := p.y,
         width := bulletWidth, height := bulletHeight, speed := 10,
         damage := 10 * p.bulletSize, size := p.bulletSize }))

/-- Held-direction input snapshot (keyboard flags read by the tick). -/
structure Input where
  left : Bool
  right : Bool
  up : Bool
  down : Bool
deriving DecidableEq, Repr

/-- Player movement with clamping to the playfield, one axis at a time, in
source order (left, right, up, down). -/
def movePlayer (inp : Input) (p0 : Player) : Player :=
  let p1 := if inp.left then { p0 with x := max 0 (p0.x - p0.speed) } else p0
  let p2 := if inp.right then
      { p1 with x := min (CANVAS_WIDTH - p1.width) (p1.x + p1.speed) } else p1
  let p3 := if inp.up then { p2 with y := max 0 (p2.y - p2.speed) } else p2
  if inp.down then
    { p3 with y := min (CANVAS_HEIGHT - p3.height) (p3.y + p3.speed) } else p3

/-- Bullet integration pass: each bullet moves up by its speed and survives
while `bullet.y > -bullet.height`. -/
def updateBullets (bs : List Bullet) : List Bullet :=
  bs.filterMap (fun b0 =>
    let b := { b0 with y := b0.y - b0.speed }
    if b.y > -b.height then some b else none)

/-- One enemy moved down by its own speed (`enemy.y += enemy.speed`). -/
def moveEnemy (e : Enemy) : Enemy := { e with y := e.y + e.speed }

/-- State threaded through the enemy (player-collision) pass. -/
structure PEState where
  player : Player
  enemies : List Enemy
  explosions : List Explosion
  powerUps : List PowerUp
  score : ℤ
  rng : List ℚ
deriving DecidableEq, Repr

/-- One step of the enemy filter pass: move the enemy; if it overlaps the
player, damage the player by 20, push an explosion of maxRadius 50 at the
enemy's centre, roll a power-up there and drop the enemy; otherwise keep it
while on screen (`enemy.y < CANVAS_HEIGHT + enemy.height`). -/
def peStep (st : PEState) (e0 : Enemy) : PEState :=
  let e := moveEnemy e0
  if st.player.rect.intersects e.rect then
    let sp :=
      spawnPowerUp (e.x + e.width / 2) (e.y + e.height / 2) st.rng st.powerUps
    { st with
      player := { st.player with health := st.player.health - 20 },
      explosions := st.explosions ++
        [{ x := e.x + e.width / 2, y := e.y + e.height / 2, radius := 0,
           maxRadius := 50, opacity := 1 }],
      powerUps := sp.1, rng := sp.2 }
  else if e.y < CANVAS_HEIGHT + e.height then
    { st with enemies := st.enemies ++ [e] }
  else st

/-- The whole enemy filter pass (`enemiesRef.current.filter(...)` of
`updateGame`): left fold of `peStep` over the enemy pool. -/
def playerEnemyPass (p : Player) (enemies : List Enemy)
    (exs : List Explosion) (pus : List PowerUp) (score : ℤ)
    (rng : List ℚ) : PEState :=
  enemies.foldl peStep ⟨p, [], exs, pus, score, rng⟩

/-- The stat change of one power-up pickup (`size`, `rate`, `count`). -/
def applyPowerUp (t : PUType) (p : Player) : Player :=
  match t with
  | .size => { p with bulletSize := min 2 (p.bulletSize + 3/10) }
  | .rate => { p with fireRate := max 50 (p.fireRate - 30) }
  | .count => { p with bulletCount := min 5 (p.bulletCount + 1) }

/-- State threaded through the power-up pass. -/
structure PPState where
  player : Player
  powerUps : List PowerUp
deriving DecidableEq, Repr

/-- One step of the power-up filter pass: move the power-up down; on player
contact apply its effect and drop it; otherwise keep it while on screen. -/
def ppStep (st : PPState) (pu0 : PowerUp) : PPState :=
  let pu := { pu0 with y := pu0.y + pu0.speed }
  if st.player.rect.intersects pu.rect then
    { st with player := applyPowerUp pu.ptype st.player }
  else if pu.y < CANVAS_HEIGHT + pu.height then
    { st with powerUps := st.powerUps ++ [pu] }
  else st

/-- The whole power-up filter pass of `updateGame`. -/
def powerUpPass (p : Player) (pus : List PowerUp) : PPState :=
  pus.foldl ppStep ⟨p, []⟩

/-- Score value of a destroyed enemy (small 10, medium 25, large 50). -/
def enemyPoints : EType → ℤ
  | .small => 10
  | .medium => 25
  | .large => 50

/-- State threaded through the bullet × enemy pass. -/
structure BEState where
  enemies : List Enemy
  explosions : List Explosion
  powerUps : List PowerUp
  score : ℤ
  rng : List ℚ
deriving DecidableEq, Repr

/-- The inner enemy filter of the bullet × enemy pass, for a fixed bullet:
on AABB overlap the enemy takes `bullet.damage` and `bulletHit` is set; a
dead enemy yields an explosion of maxRadius `enemy.width`, a power-up roll
and `enemyPoints` score, and is dropped; there is no early exit, so ALL
overlapping enemies are processed. -/
def beEnemyStep (b : Bullet) (acc : Bool × BEState) (e0 : Enemy) :
    Bool × BEState :=
  let st := acc.2
  if b.rect.intersects e0.rect then
    let e : Enemy := { e0 with health := e0.health - b.damage }
    if e.health ≤ 0 then
      let sp :=
        spawnPowerUp (e.x + e.width / 2) (e.y + e.height / 2) st.rng st.powerUps
      (true,
       { st with
         explosions := st.explosions ++
           [{ x := e.x + e.width / 2, y := e.y + e.height / 2, radius := 0,
              maxRadius := e.width, opacity := 1 }],
         powerUps := sp.1, score := st.score + enemyPoints e.etype,
         rng := sp.2 })
    else (true, { st with enemies := st.enemies ++ [e] })
  else (acc.1, { st with enemies := st.enemies ++ [e0] })

/-- Processing of one bullet against the whole enemy pool; returns the
`bulletHit` flag and the updated state. -/
def bulletPassOne (b : Bullet) (st : BEState) : Bool × BEState :=
  st.enemies.foldl (beEnemyStep b) (false, { st with enemies := [] })

/-- The whole bullet × enemy pass (`bulletsRef.current.filter(...)`):
each bullet is kept iff `!bulletHit`. -/
def bulletEnemyPass (bullets : List Bullet) (st : BEState) :
    List Bullet × BEState :=
  bullets.foldl (fun acc b =>
    let hs := bulletPassOne b acc.2
    (if hs.1 then acc.1 else acc.1 ++ [b], hs.2)) ([], st)

/-- Explosion pass: radius grows by 3, opacity fades by 0.03, an explosion
survives while `opacity > 0`. -/
def updateExplosions (exs : List Explosion) : List Explosion :=
  exs.filterMap (fun e0 =>
    let e := { e0 with radius := e0.radius + 3, opacity := e0.opacity - 3/100 }
    if e.opacity > 0 then some e else none)

/-- The whole mutable game context owned by the tick loop.  `submissions`
records the scores handed to the asynchronous high-score POST, in order. -/
structure Game where
  state : GState
  player : Player
  bullets : List Bullet
  enemies : List Enemy
  powerUps : List PowerUp
  explosions : List Explosion
  score : ℤ
  submissions : List ℤ
  rng : List ℚ
deriving DecidableEq, Repr

/-- Enemy-spawn gate of the tick:
`if (Math.random() < 0.012 + score * 0.00005) spawnEnemy()`. -/
def maybeSpawnEnemy (score : ℤ) (enemies : List Enemy) (rng : List ℚ) :
    List Enemy × List ℚ :=
  let d0 := nextRoll rng
  if d0.1 < 12/1000 + (score : ℚ) * (5/100000) then
    let se := spawnEnemy d0.2
    (enemies ++ [se.1], se.2)
  else (enemies, d0.2)

/-- The entity-simulation part of one `playing` tick, in source order:
player movement, `shootBullet`, bullet integration, the enemy-spawn gate,
the enemy (player-collision) pass, the power-up pass, the bullet × enemy
pass, and the explosion pass. -/
def simCore (inp : Input) (timestamp : ℚ) (g : Game) : Game :=
  let p1 := movePlayer inp g.player
  let sb := shootBullet timestamp p1 g.bullets
  let bs2 := updateBullets sb.2
  let ms := maybeSpawnEnemy g.score g.enemies g.rng
  let pe := playerEnemyPass sb.1 ms.1 g.explosions g.powerUps g.score ms.2
  let pp := powerUpPass pe.player pe.powerUps
  let bp := bulletEnemyPass bs2
    ⟨pe.enemies, pe.explosions, pp.powerUps, pe.score, pe.rng⟩
  { g with player := pp.player, bullets := bp.1, enemies := bp.2.enemies,
           powerUps := bp.2.powerUps,
           explosions := updateExplosions bp.2.explosions,
           score := bp.2.score, rng := bp.2.rng }

/-- One simulation tick (`updateGame(timestamp)`).  Outside `playing` the
tick only draws ambient animation and mutates nothing.  In `playing` it
runs `simCore` and then the terminal check `player.health <= 0`, which
switches to `gameover` and submits the closure-captured score `score` (the
value at the start of the tick, not including points from this tick's
kills). -/
def updateGame (inp : Input) (timestamp : ℚ) (g : Game) : Game :=
  if g.state = .playing then
    let g' := simCore inp timestamp g
    if g'.player.health ≤ 0 then
      { g' with state := .gameover, submissions := g'.submissions ++ [g.score] }
    else g'
  else g

/-- A run of the tick loop over a list of (input, timestamp) frames. -/
def runTicks (g : Game) : List (Input × ℚ) → Game
  | [] => g
  | it :: rest => runTicks (updateGame it.1 it.2 g) rest

/-- The initial/reset player of `resetGame`. -/
def defaultPlayer : Player :=
  { x := CANVAS_WIDTH / 2 - 25, y := CANVAS_HEIGHT - 100, width := 50,
    height := 50, speed := 6, health := 100, maxHealth := 100,
    bulletSize := 1, fireRate := 200, bulletCount := 1, lastShot := 0 }

/-!  The high-score HTTP store (`src/app/api/highscore/route.ts`).  The
database table of score records is modelled as the list of stored scores;
`findFirst` ordered by score descending is the maximum of that list.  A
request body whose `score` is not a number is modelled as `none`. -/

/-- `db.gameScore.findFirst({orderBy: {score: 'desc'}})`: the maximum
stored score, `none` when the table is empty. -/
def storeMax : List ℤ → Option ℤ
  | [] => none
  | x :: xs =>
    some (match storeMax xs with
          | none => x
          | some m => max x m)

/-- `GET /api/highscore`: the stored maximum, or 0 when no record exists
(`highScore?.score || 0`). -/
def getHighScore (store : List ℤ) : ℤ := (storeMax store).getD 0

/-- Outcome of `POST /api/highscore`: a 200 body
`{highScore, isNewRecord}` or the 400 `Invalid score` rejection. -/
inductive PostResult where
  | ok (highScore : ℤ) (isNewRecord : Bool)
  | badRequest
deriving DecidableEq, Repr

/-- `POST /api/highscore`: validation (`typeof score !== 'number' || score
< 0` rejects with no mutation), then
`if (!currentHighScore || score > currentHighScore.score)` create a new
record and report a new record, else report the unchanged maximum. -/
def postScore (body : Option ℤ) (store : List ℤ) : PostResult × List ℤ :=
  match body with
  | none => (.badRequest, store)
  | some score =>
    if score < 0 then (.badRequest, store)
    else
      match storeMax store with
      | none => (.ok score true, store ++ [score])
      | some m =>
        if score > m then (.ok score true, store ++ [score])
        else (.ok m false, store)

/-! Derived notions used to characterize the passes, and concrete inputs. -/

/-- An all-keys-up input snapshot. -/
def noInput : Input := ⟨false, false, false, false⟩

/-- Boolean form of the player/enemy AABB test. -/
def collides (p : Player) (e : Enemy) : Bool := decide (p.rect.intersects e.rect)

/-- The moved enemies that overlap the player this tick (in pool order). -/
def peHits (p : Player) (l : List Enemy) : List Enemy :=
  (l.map moveEnemy).filter (collides p)

/-- The moved enemies that neither collide nor left the playfield. -/
def peMisses (p : Player) (l : List Enemy) : List Enemy :=
  (l.map moveEnemy).filter
    (fun e => !collides p e && decide (e.y < CANVAS_HEIGHT + e.height))

/-- The explosion a player collision creates at an enemy's centre. -/
def peExplosion (e : Enemy) : Explosion :=
  ⟨e.x + e.width / 2, e.y + e.height / 2, 0, 50, 1⟩

/-- Power-up rolls at the centres of a list of enemies, in order. -/
def spawnPowerUpsAt (l : List Enemy) (pus : List PowerUp) (rng : List ℚ) :
    List PowerUp × List ℚ :=
  l.foldl (fun acc e =>
    spawnPowerUp (e.x + e.width / 2) (e.y + e.height / 2) acc.2 acc.1)
    (pus, rng)

/-- What one bullet leaves of one enemy: untouched when not overlapping,
damaged when overlapping and surviving, gone when the damage kills it. -/
def beSurvivor (b : Bullet) (e : Enemy) : Option Enemy :=
  if b.rect.intersects e.rect then
    (if e.health - b.damage ≤ 0 then none
     else some { e with health := e.health - b.damage })
  else some e

/-- Concrete bullet overlapping both enemies of `stC1`. -/
def bC1 : Bullet := ⟨0, 0, 10, 10, 10, 10, 1⟩

/-- Concrete bullet-pass state with two enemies overlapping `bC1`. -/
def stC1 : BEState :=
  ⟨[⟨5, 5, 10, 10, 1, 20, 20, .small⟩, ⟨2, 2, 10, 10, 1, 20, 20, .small⟩],
   [], [], 0, []⟩

/-- Concrete player at 10 health. -/
def pC2 : Player := { defaultPlayer with health := 10 }

/-- Concrete enemy one pixel above the player, about to collide. -/
def eC2 : Enemy := ⟨defaultPlayer.x, defaultPlayer.y - 1, 40, 40, 1, 20, 20, .small⟩

/-- Concrete player at 20 health for the game-over tick. -/
def pC8 : Player :=
  { x := 0, y := 700, width := 50, height := 50, speed := 6,
    health := 20, maxHealth := 100, bulletSize := 1, fireRate := 200,
    bulletCount := 1, lastShot := 0 }

/-- Concrete playing game in which, in one tick, a bullet kills one enemy
(worth 10 points) while another enemy collides with the player and drops
its health to 0. -/
def gC8 : Game :=
  { state := .playing, player := pC8,
    bullets := [⟨200, 111, 6, 12, 10, 10, 1⟩],
    enemies := [⟨0, 699, 40, 40, 1, 20, 20, .small⟩,
                ⟨200, 100, 40, 40, 1, 10, 20, .small⟩],
    powerUps := [], explosions := [], score := 0, submissions := [],
    rng := [1, 1, 1] }

/-- Concrete game already in the game-over state. -/
def gOverW : Game :=
  { state := .gameover, player := defaultPlayer, bullets := [], enemies := [],
    powerUps := [], explosions := [], score := 7, submissions := [7], rng := [] }

/-- Concrete freshly started game. -/
def gPlayW : Game :=
  { state := .playing, player := defaultPlayer, bullets := [], enemies := [],
    powerUps := [], explosions := [], score := 0, submissions := [], rng := [] }

/-- One-submission invariant of the tick loop: while playing nothing has
been submitted; once game over, exactly one score has been submitted. -/
def c8Inv (g : Game) : Prop :=
  (g.state = .playing ∧ g.submissions = []) ∨
  (g.state = .gameover ∧ ∃ s, g.submissions = [s])

/-! Helper lemmas. -/

/-- The `rate` effect keeps a floored fire rate at the floor. -/
lemma rate_absorb (p : Player) (h : p.fireRate = 50) :
    (applyPowerUp .rate p).fireRate = 50 := by
  show max 50 (p.fireRate - 30) = 50
  rw [h]; norm_num

/-- The `size` effect keeps a capped bullet size at the cap. -/
lemma size_absorb (p : Player) (h : p.bulletSize = 2) :
    (applyPowerUp .size p).bulletSize = 2 := by
  show min 2 (p.bulletSize + 3/10) = 2
  rw [h]; norm_num

/-- Five `rate` pickups from the default player reach the 50 ms floor. -/
lemma rate_five :
    ((applyPowerUp .rate)^[5] defaultPlayer).fireRate = 50 := by
  show (applyPowerUp .rate (applyPowerUp .rate (applyPowerUp .rate
    (applyPowerUp .rate (applyPowerUp .rate defaultPlayer))))).fireRate = 50
  norm_num [applyPowerUp, defaultPlayer, max_def]

/-- Four `size` pickups from the default player reach the cap of 2. -/
lemma size_four :
    ((applyPowerUp .size)^[4] defaultPlayer).bulletSize = 2 := by
  show (applyPowerUp .size (applyPowerUp .size (applyPowerUp .size
    (applyPowerUp .size defaultPlayer)))).bulletSize = 2
  norm_num [applyPowerUp, defaultPlayer, min_def]

/-- The fire rate stays at 50 under further `rate` pickups. -/
lemma rate_stable (k : ℕ) :
    ((applyPowerUp .rate)^[k] ((applyPowerUp .rate)^[5] defaultPlayer)).fireRate
      = 50 := by
  induction k with
  | zero => exact rate_five
  | succ k ih => rw [Function.iterate_succ_apply']; exact rate_absorb _ ih

/-- The bullet size stays at 2 under further `size` pickups. -/
lemma size_stable (k : ℕ) :
    ((applyPowerUp .size)^[k] ((applyPowerUp .size)^[4] defaultPlayer)).bulletSize
      = 2 := by
  induction k with
  | zero => exact size_four
  | succ k ih => rw [Function.iterate_succ_apply']; exact size_absorb _ ih

/-! Claim theorems. -/

/-- C5: the collision test between entities is AABB intersection with strict
inequalities; rectangles (0,0,10,10) and (5,5,10,10) intersect, while
(0,0,10,10) and (10,10,10,10), touching only at edges, do not. -/
theorem c5_theorem :
    (∀ a b : Rect, a.intersects b ↔
      (a.x < b.x + b.w ∧ a.x + a.w > b.x ∧ a.y < b.y + b.h ∧ a.y + a.h > b.y)) ∧
    (Rect.mk 0 0 10 10).intersects (Rect.mk 5 5 10 10) ∧
    ¬ (Rect.mk 0 0 10 10).intersects (Rect.mk 10 10 10 10) := by
  refine ⟨fun a b => Iff.rfl, ?_, ?_⟩
  · norm_num [Rect.intersects]
  · norm_num [Rect.intersects]

/-- C4: `shootBullet` fires iff the cooldown has elapsed
(`timestamp − lastShot ≥ fireRate`); on success it sets `lastShot` to the
timestamp and appends exactly `bulletCount` bullets of width `6·bulletSize`,
height `12·bulletSize` and damage `10·bulletSize`; with `fireRate = 200` and
the cooldown elapsed, calls at 1000 and 1150 produce one volley, calls at
1000 and 1250 produce two. -/
theorem c4_theorem :
    (∀ (t : ℚ) (p : Player) (bs : List Bullet),
      (t - p.lastShot < p.fireRate → shootBullet t p bs = (p, bs)) ∧
      (p.fireRate ≤ t - p.lastShot →
        (shootBullet t p bs).1 = { p with lastShot := t } ∧
        (shootBullet t p bs).2.length = bs.length + p.bulletCount ∧
        (∀ b ∈ (shootBullet t p bs).2.drop bs.length,
          b.width = 6 * p.bulletSize ∧ b.height = 12 * p.bulletSize ∧
          b.damage = 10 * p.bulletSize))) ∧
    (shootBullet 1150 (shootBullet 1000 defaultPlayer []).1
        (shootBullet 1000 defaultPlayer []).2).2.length = 1 ∧
    (shootBullet 1250 (shootBullet 1000 defaultPlayer []).1
        (shootBullet 1000 defaultPlayer []).2).2.length = 2 := by
  refine ⟨fun t p bs => ⟨fun h => ?_, fun h => ⟨?_, ?_, ?_⟩⟩, ?_, ?_⟩
  · simp only [shootBullet]; rw [if_pos h]
  · simp only [shootBullet]; rw [if_neg (not_lt.2 h)]
  · simp only [shootBullet]; rw [if_neg (not_lt.2 h)]
    simp
  · simp only [shootBullet]; rw [if_neg (not_lt.2 h)]
    intro b hb
    rw [List.drop_left] at hb
    simp only [List.mem_map, List.mem_range] at hb
    obtain ⟨i, _, rfl⟩ := hb
    exact ⟨rfl, rfl, rfl⟩
  · norm_num [shootBullet, defaultPlayer]
  · norm_num [shootBullet, defaultPlayer]

/-- C4 witness: at concrete inputs, a call inside the cooldown leaves the
state unchanged and a call after it resets `lastShot`. -/
theorem c4_witness :
    shootBullet 100 defaultPlayer [] = (defaultPlayer, []) ∧
    (shootBullet 1000 defaultPlayer []).1 = { defaultPlayer with lastShot := 1000 } :=
  ⟨(c4_theorem.1 100 defaultPlayer []).1 (by norm_num [defaultPlayer]),
   ((c4_theorem.1 1000 defaultPlayer []).2 (by norm_num [defaultPlayer])).1⟩

/-- C6: each pickup applies `min(2, bulletSize+0.3)`, `max(50, fireRate−30)`,
`min(5, bulletCount+1)`; from the default player, ten `count` pickups give
`bulletCount = 5` and it never exceeds 5; `rate` pickups bottom out at 50
(from the fifth on, never below); `size` pickups stop at 2 (from the fourth
on, never above). -/
theorem c6_theorem :
    (∀ p : Player,
      applyPowerUp .size p = { p with bulletSize := min 2 (p.bulletSize + 3/10) } ∧
      applyPowerUp .rate p = { p with fireRate := max 50 (p.fireRate - 30) } ∧
      applyPowerUp .count p = { p with bulletCount := min 5 (p.bulletCount + 1) }) ∧
    ((applyPowerUp .count)^[10] defaultPlayer).bulletCount = 5 ∧
    (∀ n, ((applyPowerUp .count)^[n] defaultPlayer).bulletCount ≤ 5) ∧
    (∀ n, 5 ≤ n → ((applyPowerUp .rate)^[n] defaultPlayer).fireRate = 50) ∧
    (∀ n, 50 ≤ ((applyPowerUp .rate)^[n] defaultPlayer).fireRate) ∧
    (∀ n, 4 ≤ n → ((applyPowerUp .size)^[n] defaultPlayer).bulletSize = 2) ∧
    (∀ n, ((applyPowerUp .size)^[n] defaultPlayer).bulletSize ≤ 2) := by
  refine ⟨fun p => ⟨rfl, rfl, rfl⟩, ?_, ?_, ?_, ?_, ?_, ?_⟩
  · decide
  · intro n
    cases n with
    | zero => simp [defaultPlayer]
    | succ n =>
      rw [Function.iterate_succ_apply']
      exact min_le_left _ _
  · intro n h
    obtain ⟨k, rfl⟩ := Nat.exists_eq_add_of_le h
    rw [add_comm, Function.iterate_add_apply]
    exact rate_stable k
  · intro n
    cases n with
    | zero => norm_num [defaultPlayer]
    | succ n =>
      rw [Function.iterate_succ_apply']
      exact le_max_left _ _
  · intro n h
    obtain ⟨k, rfl⟩ := Nat.exists_eq_add_of_le h
    rw [add_comm, Function.iterate_add_apply]
    exact size_stable k
  · intro n
    cases n with
    | zero => norm_num [defaultPlayer]
    | succ n =>
      rw [Function.iterate_succ_apply']
      exact min_le_left _ _

/-- C6 witness: concrete instances of the capped behaviours. -/
theorem c6_witness :
    ((applyPowerUp .rate)^[6] defaultPlayer).fireRate = 50 ∧
    ((applyPowerUp .size)^[5] defaultPlayer).bulletSize = 2 ∧
    ((applyPowerUp .count)^[3] defaultPlayer).bulletCount ≤ 5 :=
  ⟨c6_theorem.2.2.2.1 6 (by norm_num),
   c6_theorem.2.2.2.2.2.1 5 (by norm_num),
   c6_theorem.2.2.1 3⟩

/-- C9: with an existing stored maximum, the store creates a record and
reports a new record exactly when the submission strictly exceeds it, and
otherwise returns the unchanged maximum; a negative or non-numeric score is
rejected with no mutation; a fetch on the empty store returns 0. -/
theorem c9_theorem :
    getHighScore [] = 0 ∧
    (∀ s, postScore none s = (.badRequest, s)) ∧
    (∀ (k : ℤ) (s : List ℤ), k < 0 → postScore (some k) s = (.badRequest, s)) ∧
    (∀ (k m : ℤ) (s : List ℤ), 0 ≤ k → storeMax s = some m →
      (m < k → postScore (some k) s = (.ok k true, s ++ [k])) ∧
      (k ≤ m → postScore (some k) s = (.ok m false, s))) := by
  refine ⟨rfl, fun s => rfl, ?_, ?_⟩
  · intro k s hk
    simp [postScore, if_pos hk]
  · intro k m s hk hm
    constructor
    · intro hlt
      simp [postScore, if_neg (not_lt.2 hk), hm, if_pos hlt]
    · intro hle
      simp [postScore, if_neg (not_lt.2 hk), hm, if_neg (not_lt.2 hle)]

/-- C9 witness: concrete store interactions. -/
theorem c9_witness :
    postScore none [3] = (.badRequest, [3]) ∧
    postScore (some (-1)) [3] = (.badRequest, [3]) ∧
    postScore (some 5) [3] = (.ok 5 true, [3, 5]) ∧
    postScore (some 2) [3] = (.ok 3 false, [3]) :=
  ⟨c9_theorem.2.1 [3],
   c9_theorem.2.2.1 (-1) [3] (by decide),
   (c9_theorem.2.2.2 5 3 [3] (by decide) (by decide)).1 (by decide),
   (c9_theorem.2.2.2 2 3 [3] (by decide) (by decide)).2 (by decide)⟩

/-- C10: on an empty store every valid submission, including 0, creates a
record and reports a new record, although 0 does not strictly exceed the 0
a fetch on the empty store reports. -/
theorem c10_theorem :
    (∀ k : ℤ, 0 ≤ k → postScore (some k) [] = (.ok k true, [k])) ∧
    postScore (some 0) [] = (.ok 0 true, [0]) ∧
    getHighScore [] = 0 ∧ ¬((0 : ℤ) > 0) := by
  refine ⟨?_, by decide, rfl, by decide⟩
  intro k hk
  simp [postScore, storeMax, if_neg (not_lt.2 hk)]

/-- C10 witness: the first-submission bypass at score 0. -/
theorem c10_witness :
    postScore (some 0) [] = (.ok 0 true, [0]) :=
  c10_theorem.1 0 (by decide)

/-- A bullet misses an enemy: flag unchanged, enemy kept as is. -/
lemma beEnemyStep_miss (b : Bullet) (hit : Bool) (st : BEState) (e : Enemy)
    (hi : ¬ b.rect.intersects e.rect) :
    beEnemyStep b (hit, st) e =
      (hit, { st with enemies := st.enemies ++ [e] }) := by
  simp [beEnemyStep, hi]

/-- A bullet hits a surviving enemy: flag set, enemy kept damaged. -/
lemma beEnemyStep_hurt (b : Bullet) (hit : Bool) (st : BEState) (e : Enemy)
    (hi : b.rect.intersects e.rect) (hd : ¬ e.health - b.damage ≤ 0) :
    beEnemyStep b (hit, st) e =
      (true, { st with enemies :=
        st.enemies ++ [{ e with health := e.health - b.damage }] }) := by
  simp [beEnemyStep, hi, hd]

/-- A bullet kills an enemy: flag set, enemy dropped, explosion, power-up
roll and score added. -/
lemma beEnemyStep_kill (b : Bullet) (hit : Bool) (st : BEState) (e : Enemy)
    (hi : b.rect.intersects e.rect) (hd : e.health - b.damage ≤ 0) :
    beEnemyStep b (hit, st) e =
      (true, { st with
        explosions := st.explosions ++
          [{ x := e.x + e.width / 2, y := e.y + e.height / 2, radius := 0,
             maxRadius := e.width, opacity := 1 }],
        powerUps := (spawnPowerUp (e.x + e.width / 2) (e.y + e.height / 2)
          st.rng st.powerUps).1,
        score := st.score + enemyPoints e.etype,
        rng := (spawnPowerUp (e.x + e.width / 2) (e.y + e.height / 2)
          st.rng st.powerUps).2 }) := by
  simp [beEnemyStep, hi, hd]

/-- Characterization of one bullet's sweep over the enemy pool: the flag
records whether any enemy overlaps, and every overlapping enemy (not only
the first) is damaged or removed, per `beSurvivor`. -/
lemma beFold (b : Bullet) (l : List Enemy) :
    ∀ (hit : Bool) (st : BEState),
    (l.foldl (beEnemyStep b) (hit, st)).1
        = (hit || l.any fun e => decide (b.rect.intersects e.rect)) ∧
    (l.foldl (beEnemyStep b) (hit, st)).2.enemies
        = st.enemies ++ l.filterMap (beSurvivor b) := by
  induction l with
  | nil => intro hit st; simp
  | cons e l ih =>
    intro hit st
    rw [List.foldl_cons]
    by_cases hi : b.rect.intersects e.rect
    · by_cases hd : e.health - b.damage ≤ 0
      · rw [beEnemyStep_kill b hit st e hi hd]
        obtain ⟨h1, h2⟩ := ih true _
        refine ⟨?_, ?_⟩
        · rw [h1]; simp [hi]
        · rw [h2]; simp [beSurvivor, hi, hd]
      · rw [beEnemyStep_hurt b hit st e hi hd]
        obtain ⟨h1, h2⟩ := ih true _
        refine ⟨?_, ?_⟩
        · rw [h1]; simp [hi]
        · rw [h2]; simp [beSurvivor, hi, hd]
    · rw [beEnemyStep_miss b hit st e hi]
      obtain ⟨h1, h2⟩ := ih hit _
      refine ⟨?_, ?_⟩
      · rw [h1]; simp [hi]
      · rw [h2]; simp [beSurvivor, hi]

/-- An enemy collides with the player: damage, explosion, power-up roll. -/
lemma peStep_hit (st : PEState) (e : Enemy)
    (hi : st.player.rect.intersects (moveEnemy e).rect) :
    peStep st e =
      { st with
        player := { st.player with health := st.player.health - 20 },
        explosions := st.explosions ++ [peExplosion (moveEnemy e)],
        powerUps := (spawnPowerUp ((moveEnemy e).x + (moveEnemy e).width / 2)
          ((moveEnemy e).y + (moveEnemy e).height / 2) st.rng st.powerUps).1,
        rng := (spawnPowerUp ((moveEnemy e).x + (moveEnemy e).width / 2)
          ((moveEnemy e).y + (moveEnemy e).height / 2) st.rng st.powerUps).2 } := by
  simp [peStep, hi, peExplosion]

/-- An on-screen non-colliding enemy is kept. -/
lemma peStep_keep (st : PEState) (e : Enemy)
    (hi : ¬ st.player.rect.intersects (moveEnemy e).rect)
    (hy : (moveEnemy e).y < CANVAS_HEIGHT + (moveEnemy e).height) :
    peStep st e = { st with enemies := st.enemies ++ [moveEnemy e] } := by
  simp [peStep, hi, hy]

/-- An off-screen non-colliding enemy is dropped. -/
lemma peStep_drop (st : PEState) (e : Enemy)
    (hi : ¬ st.player.rect.intersects (moveEnemy e).rect)
    (hy : ¬ (moveEnemy e).y < CANVAS_HEIGHT + (moveEnemy e).height) :
    peStep st e = st := by
  simp [peStep, hi, hy]

/-- Collision hits do not depend on the player's health. -/
lemma peHits_update (p : Player) (h : ℚ) (l : List Enemy) :
    peHits { p with health := h } l = peHits p l := rfl

/-- Collision misses do not depend on the player's health. -/
lemma peMisses_update (p : Player) (h : ℚ) (l : List Enemy) :
    peMisses { p with health := h } l = peMisses p l := rfl

/-- Unfolding of `peHits` on a cons. -/
lemma peHits_cons (p : Player) (e : Enemy) (l : List Enemy) :
    peHits p (e :: l) =
      if p.rect.intersects (moveEnemy e).rect
      then moveEnemy e :: peHits p l else peHits p l := by
  by_cases hi : p.rect.intersects (moveEnemy e).rect <;>
    simp [peHits, collides, List.filter_cons, hi]

/-- Unfolding of `peMisses` on a cons. -/
lemma peMisses_cons (p : Player) (e : Enemy) (l : List Enemy) :
    peMisses p (e :: l) =
      if p.rect.intersects (moveEnemy e).rect then peMisses p l
      else if (moveEnemy e).y < CANVAS_HEIGHT + (moveEnemy e).height
      then moveEnemy e :: peMisses p l else peMisses p l := by
  by_cases hi : p.rect.intersects (moveEnemy e).rect
  · simp [peMisses, collides, List.filter_cons, hi]
  · by_cases hy : (moveEnemy e).y < CANVAS_HEIGHT + (moveEnemy e).height <;>
      simp [peMisses, collides, List.filter_cons, hi, hy]

/-- Unfolding of `spawnPowerUpsAt` on a cons. -/
lemma spawnPowerUpsAt_cons (e : Enemy) (l : List Enemy) (pus : List PowerUp)
    (rng : List ℚ) :
    spawnPowerUpsAt (e :: l) pus rng =
      spawnPowerUpsAt l
        (spawnPowerUp (e.x + e.width / 2) (e.y + e.height / 2) rng pus).1
        (spawnPowerUp (e.x + e.width / 2) (e.y + e.height / 2) rng pus).2 := by
  simp [spawnPowerUpsAt]

/-- Characterization of the whole player-collision pass: the player loses
20 health per overlapping enemy, each overlapping enemy yields one
maxRadius-50 explosion at its centre and one power-up roll there and is
removed; the survivors are exactly the on-screen non-overlapping enemies;
the score is untouched. -/
lemma peFold (l : List Enemy) :
    ∀ st : PEState,
    l.foldl peStep st =
      { player := { st.player with health :=
          st.player.health - 20 * ((peHits st.player l).length : ℚ) },
        enemies := st.enemies ++ peMisses st.player l,
        explosions := st.explosions ++ (peHits st.player l).map peExplosion,
        powerUps := (spawnPowerUpsAt (peHits st.player l) st.powerUps st.rng).1,
        score := st.score,
        rng := (spawnPowerUpsAt (peHits st.player l) st.powerUps st.rng).2 } := by
  induction l with
  | nil =>
    intro st
    simp [peHits, peMisses, spawnPowerUpsAt]
  | cons e l ih =>
    intro st
    rw [List.foldl_cons]
    by_cases hi : st.player.rect.intersects (moveEnemy e).rect
    · rw [peStep_hit st e hi, ih]
      simp only [peHits_update, peMisses_update, peHits_cons, peMisses_cons,
        hi, if_pos, spawnPowerUpsAt_cons, List.map_cons, List.length_cons]
      simp [PEState.mk.injEq, Player.mk.injEq, List.append_assoc]
      ring
    · by_cases hy : (moveEnemy e).y < CANVAS_HEIGHT + (moveEnemy e).height
      · rw [peStep_keep st e hi hy, ih]
        simp only [peHits_cons, peMisses_cons, hi, hy, if_neg, if_pos,
          spawnPowerUpsAt_cons, ite_false, ite_true]
        simp [List.append_assoc]
      · rw [peStep_drop st e hi hy, ih]
        simp only [peHits_cons, peMisses_cons, hi, hy]
        simp

/-- C1 (amended): in the bullet × enemy pass, one projectile damages EVERY
enemy whose rectangle it overlaps, in pool order — each such enemy takes
`bullet.damage` (and is removed if that kills it) — and the projectile is
removed iff it overlapped at least one enemy. -/
theorem c1_theorem :
    ∀ (b : Bullet) (st : BEState),
    (bulletPassOne b st).2.enemies = st.enemies.filterMap (beSurvivor b) ∧
    ((bulletPassOne b st).1
      = st.enemies.any fun e => decide (b.rect.intersects e.rect)) := by
  intro b st
  obtain ⟨h1, h2⟩ := beFold b st.enemies false { st with enemies := [] }
  constructor
  · show (st.enemies.foldl (beEnemyStep b)
      (false, { st with enemies := [] })).2.enemies = _
    rw [h2]; simp
  · show (st.enemies.foldl (beEnemyStep b)
      (false, { st with enemies := [] })).1 = _
    rw [h1]; simp

/-- C1 counterexample: a single projectile overlapping two enemies (both at
health 20, damage 10) changes BOTH their healths to 10 in the same pass,
refuting the claim that no adversary beyond the first is affected. -/
theorem c1_counterexample :
    stC1.enemies.map Enemy.health = [20, 20] ∧
    (stC1.enemies.all fun e => decide (bC1.rect.intersects e.rect)) = true ∧
    (bulletPassOne bC1 stC1).2.enemies.map Enemy.health = [10, 10] := by
  refine ⟨by norm_num [stC1], ?_, ?_⟩
  · norm_num [stC1, bC1, Rect.intersects, Bullet.rect, Enemy.rect]
  · norm_num [bulletPassOne, beEnemyStep, stC1, bC1, Rect.intersects,
      Bullet.rect, Enemy.rect]

/-- C2 (amended): the player-collision pass subtracts exactly 20 health per
overlapping enemy with no clamping — health never increases, but it can go
strictly below 0. -/
theorem c2_theorem :
    ∀ (p : Player) (enemies : List Enemy) (exs : List Explosion)
      (pus : List PowerUp) (score : ℤ) (rng : List ℚ),
    (playerEnemyPass p enemies exs pus score rng).player =
      { p with health := p.health - 20 * ((peHits p enemies).length : ℚ) } ∧
    (playerEnemyPass p enemies exs pus score rng).player.health ≤ p.health := by
  intro p enemies exs pus score rng
  have h0 : (playerEnemyPass p enemies exs pus score rng).player =
      { p with health := p.health - 20 * ((peHits p enemies).length : ℚ) } := by
    simp only [playerEnemyPass, peFold]
  refine ⟨h0, ?_⟩
  rw [h0]
  have hk : (0 : ℚ) ≤ 20 * ((peHits p enemies).length : ℚ) := by positivity
  show p.health - 20 * ((peHits p enemies).length : ℚ) ≤ p.health
  linarith

/-- C2 counterexample: a player at 10 health hit by one colliding enemy
ends the pass at −10, so health is not clamped at 0 and does compute
negative. -/
theorem c2_counterexample :
    (playerEnemyPass pC2 [eC2] [] [] 0 [1]).player.health = -10 ∧
    ¬ (0 ≤ (playerEnemyPass pC2 [eC2] [] [] 0 [1]).player.health) := by
  have h : (playerEnemyPass pC2 [eC2] [] [] 0 [1]).player.health = -10 := by
    norm_num [playerEnemyPass, peStep, moveEnemy, spawnPowerUp, nextRoll,
      Rect.intersects, Player.rect, Enemy.rect, pC2, eC2, defaultPlayer,
      CANVAS_WIDTH, CANVAS_HEIGHT]
  rw [h]
  norm_num

/-- C7: every enemy overlapping the player costs exactly 20 health, yields
exactly one explosion at the enemy's centre with maxRadius 50
(`peExplosion`), triggers one power-up roll at that centre, is removed
unconditionally (the survivors are exactly the non-overlapping on-screen
enemies), and the score is unchanged by this pass. -/
theorem c7_theorem :
    ∀ (p : Player) (enemies : List Enemy) (exs : List Explosion)
      (pus : List PowerUp) (score : ℤ) (rng : List ℚ),
    (playerEnemyPass p enemies exs pus score rng).player.health
      = p.health - 20 * ((peHits p enemies).length : ℚ) ∧
    (playerEnemyPass p enemies exs pus score rng).explosions
      = exs ++ (peHits p enemies).map peExplosion ∧
    (playerEnemyPass p enemies exs pus score rng).enemies
      = peMisses p enemies ∧
    ((playerEnemyPass p enemies exs pus score rng).powerUps,
     (playerEnemyPass p enemies exs pus score rng).rng)
      = spawnPowerUpsAt (peHits p enemies) pus rng ∧
    (playerEnemyPass p enemies exs pus score rng).score = score := by
  intro p enemies exs pus score rng
  refine ⟨?_, ?_, ?_, ?_, ?_⟩ <;> simp [playerEnemyPass, peFold]

/-- C3 (amended): `spawnPowerUp(x, y)` consumes the 30 % roll (no spawn when
it exceeds 0.3); on success the power-up is 40×40, falls at speed 2, is
horizontally centred on the kill point but keeps its TOP edge at the kill
point's y (its centre is (x, y + 20), not (x, y)); the variant roll picks
each of the three types on an interval of length 1/3 of a uniform draw. -/
theorem c3_theorem :
    (∀ (x y r1 r2 : ℚ) (g : List ℚ) (pus : List PowerUp),
      (r1 > 3/10 → spawnPowerUp x y (r1 :: r2 :: g) pus = (pus, r2 :: g)) ∧
      (r1 ≤ 3/10 → spawnPowerUp x y (r1 :: r2 :: g) pus =
        (pus ++ [{ x := x - 20, y := y, width := 40, height := 40, speed := 2,
                   ptype := puTypeOfRoll r2 }], g))) ∧
    (∀ (x y : ℚ) (rng : List ℚ) (pus : List PowerUp) (pu : PowerUp),
      pu ∈ (spawnPowerUp x y rng pus).1.drop pus.length →
        pu.width = 40 ∧ pu.height = 40 ∧ pu.speed = 2 ∧
        pu.x + pu.width / 2 = x ∧ pu.y = y ∧ pu.y + pu.height / 2 = y + 20) ∧
    (∀ r : ℚ,
      (0 ≤ r → r < 1/3 → puTypeOfRoll r = .size) ∧
      (1/3 ≤ r → r < 2/3 → puTypeOfRoll r = .rate) ∧
      (2/3 ≤ r → r < 1 → puTypeOfRoll r = .count)) := by
  refine ⟨?_, ?_, ?_⟩
  · intro x y r1 r2 g pus
    constructor
    · intro h
      simp [spawnPowerUp, nextRoll, h]
    · intro h
      simp [spawnPowerUp, nextRoll, if_neg (not_lt.2 h)]
  · intro x y rng pus pu hm
    by_cases hc : (nextRoll rng).1 > 3/10
    · rw [show (spawnPowerUp x y rng pus).1 = pus from by
        simp [spawnPowerUp, hc]] at hm
      simp [List.drop_length] at hm
    · rw [show (spawnPowerUp x y rng pus).1 =
          pus ++ [{ x := x - 20, y := y, width := 40, height := 40, speed := 2,
                    ptype := puTypeOfRoll (nextRoll (nextRoll rng).2).1 }] from by
        simp [spawnPowerUp, if_neg hc]] at hm
      rw [List.drop_left] at hm
      simp only [List.mem_singleton] at hm
      subst hm
      norm_num
  · intro r
    refine ⟨?_, ?_, ?_⟩
    · intro h0 h1
      have hf : ⌊r * 3⌋ = 0 :=
        Int.floor_eq_zero_iff.mpr (Set.mem_Ico.mpr ⟨by linarith, by linarith⟩)
      simp [puTypeOfRoll, hf, puTypes]
    · intro h0 h1
      have hf : ⌊r * 3⌋ = 1 :=
        Int.floor_eq_iff.mpr ⟨by push_cast; linarith, by push_cast; linarith⟩
      simp [puTypeOfRoll, hf, puTypes]
    · intro h0 h1
      have hf : ⌊r * 3⌋ = 2 :=
        Int.floor_eq_iff.mpr ⟨by push_cast; linarith, by push_cast; linarith⟩
      simp [puTypeOfRoll, hf, puTypes]

/-- C3 counterexample: a successful spawn at kill point (100, 100) places
the power-up at (80, 100): its centre is (100, 120), not (100, 100) — the
y coordinate is not offset by half the size. -/
theorem c3_counterexample :
    (spawnPowerUp 100 100 [0, 0] []).1 =
      [{ x := 80, y := 100, width := 40, height := 40, speed := 2,
         ptype := .size }] ∧
    (80 : ℚ) + 40 / 2 = 100 ∧ (100 : ℚ) + 40 / 2 = 120 ∧ (120 : ℚ) ≠ 100 := by
  refine ⟨?_, by norm_num, by norm_num, by norm_num⟩
  norm_num [spawnPowerUp, nextRoll, puTypeOfRoll, puTypes]

/-- C3 witness: a 0.5 roll spawns nothing, and the variant of a 0 roll is
`size`. -/
theorem c3_witness :
    spawnPowerUp 0 0 [1/2, 0] [] = ([], [0]) ∧ puTypeOfRoll 0 = .size :=
  ⟨(c3_theorem.1 0 0 (1/2) 0 [] []).1 (by norm_num),
   (c3_theorem.2.2 0).1 le_rfl (by norm_num)⟩

/-- The simulation core never changes the game state field. -/
lemma simCore_state (inp : Input) (t : ℚ) (g : Game) :
    (simCore inp t g).state = g.state := rfl

/-- The simulation core never changes the submission log. -/
lemma simCore_submissions (inp : Input) (t : ℚ) (g : Game) :
    (simCore inp t g).submissions = g.submissions := rfl

/-- Outside `playing` a tick mutates nothing. -/
lemma updateGame_not_playing (inp : Input) (t : ℚ) (g : Game)
    (h : g.state ≠ .playing) : updateGame inp t g = g := by
  simp [updateGame, h]

/-- A tick ending with non-positive health enters `gameover`. -/
lemma updateGame_dead_state (inp : Input) (t : ℚ) (g : Game)
    (h : g.state = .playing) (hh : (simCore inp t g).player.health ≤ 0) :
    (updateGame inp t g).state = .gameover := by
  simp [updateGame, h, hh]

/-- On the terminal tick the player is the simulated player. -/
lemma updateGame_dead_player (inp : Input) (t : ℚ) (g : Game)
    (h : g.state = .playing) (hh : (simCore inp t g).player.health ≤ 0) :
    (updateGame inp t g).player = (simCore inp t g).player := by
  simp [updateGame, h, hh]

/-- The terminal tick submits exactly the tick-start score. -/
lemma updateGame_dead_submissions (inp : Input) (t : ℚ) (g : Game)
    (h : g.state = .playing) (hh : (simCore inp t g).player.health ≤ 0) :
    (updateGame inp t g).submissions = g.submissions ++ [g.score] := by
  simp [updateGame, h, hh, simCore_submissions]

/-- A non-terminal playing tick is just the simulation core. -/
lemma updateGame_alive (inp : Input) (t : ℚ) (g : Game)
    (h : g.state = .playing) (hh : ¬ (simCore inp t g).player.health ≤ 0) :
    updateGame inp t g = simCore inp t g := by
  simp [updateGame, h, hh]

/-- One tick preserves the one-submission invariant. -/
lemma c8Inv_step (inp : Input) (t : ℚ) (g : Game) (hg : c8Inv g) :
    c8Inv (updateGame inp t g) := by
  rcases hg with ⟨hs, hsub⟩ | ⟨hs, s, hsub⟩
  · by_cases hh : (simCore inp t g).player.health ≤ 0
    · right
      refine ⟨updateGame_dead_state inp t g hs hh, g.score, ?_⟩
      rw [updateGame_dead_submissions inp t g hs hh, hsub]
      rfl
    · left
      rw [updateGame_alive inp t g hs hh]
      exact ⟨by rw [simCore_state]; exact hs,
             by rw [simCore_submissions]; exact hsub⟩
  · rw [updateGame_not_playing inp t g (by rw [hs]; decide)]
    right
    exact ⟨hs, s, hsub⟩

/-- Any run of ticks preserves the one-submission invariant. -/
lemma c8Inv_run (trace : List (Input × ℚ)) :
    ∀ g : Game, c8Inv g → c8Inv (runTicks g trace) := by
  induction trace with
  | nil => intro g hg; exact hg
  | cons it rest ih =>
    intro g hg
    exact ih _ (c8Inv_step it.1 it.2 g hg)

/-- C8 (amended): ticks outside `playing` are identities; a playing tick
ends in `gameover` exactly when the simulated health is ≤ 0 and appends one
submission exactly then — carrying the score as of the START of that tick,
not counting points earned during it; over any run started in `playing`
with an empty submission log, at most one submission ever happens, and
exactly one iff the run ended in `gameover`. -/
theorem c8_theorem :
    (∀ (inp : Input) (t : ℚ) (g : Game), g.state ≠ .playing →
      updateGame inp t g = g) ∧
    (∀ (inp : Input) (t : ℚ) (g : Game), g.state = .playing →
      ((updateGame inp t g).state = .gameover ∨
       (updateGame inp t g).state = .playing) ∧
      ((updateGame inp t g).state = .gameover ↔
        (updateGame inp t g).player.health ≤ 0) ∧
      (updateGame inp t g).submissions = g.submissions ++
        (if (updateGame inp t g).player.health ≤ 0 then [g.score] else [])) ∧
    (∀ (trace : List (Input × ℚ)) (g : Game),
      g.state = .playing → g.submissions = [] →
      (runTicks g trace).submissions.length ≤ 1 ∧
      ((runTicks g trace).state = .gameover ↔
        (runTicks g trace).submissions.length = 1)) := by
  refine ⟨updateGame_not_playing, ?_, ?_⟩
  · intro inp t g h
    by_cases hh : (simCore inp t g).player.health ≤ 0
    · refine ⟨Or.inl (updateGame_dead_state inp t g h hh), ?_, ?_⟩
      · rw [updateGame_dead_state inp t g h hh,
          updateGame_dead_player inp t g h hh]
        simp [hh]
      · rw [updateGame_dead_submissions inp t g h hh,
          updateGame_dead_player inp t g h hh, if_pos hh]
    · rw [updateGame_alive inp t g h hh]
      refine ⟨Or.inr (by rw [simCore_state]; exact h), ?_, ?_⟩
      · rw [simCore_state, h]
        simp [hh]
      · rw [simCore_submissions, if_neg hh]
        simp
  · intro trace g hs hsub
    have hinv := c8Inv_run trace g (Or.inl ⟨hs, hsub⟩)
    rcases hinv with ⟨h1, h2⟩ | ⟨h1, s, h2⟩
    · rw [h1, h2]
      simp
    · rw [h1, h2]
      simp

/-- C8 counterexample: in `gC8` a bullet kill is worth 10 points on the
very tick the player dies, so the final score is 10 while the submission
carries 0 (the closure-captured score at tick start) — the submission does
not carry the final score. -/
theorem c8_counterexample :
    (updateGame noInput 0 gC8).state = .gameover ∧
    (updateGame noInput 0 gC8).score = 10 ∧
    (updateGame noInput 0 gC8).submissions = [0] ∧
    ((0 : ℤ) ≠ 10) := by
  refine ⟨?_, ?_, ?_, by decide⟩ <;>
    norm_num [updateGame, simCore, gC8, pC8, noInput, movePlayer, shootBullet,
      updateBullets, maybeSpawnEnemy, spawnEnemy, playerEnemyPass, peStep,
      moveEnemy, powerUpPass, ppStep, bulletEnemyPass, bulletPassOne,
      beEnemyStep, spawnPowerUp, nextRoll, updateExplosions, enemyPoints,
      Rect.intersects, Player.rect, Enemy.rect, Bullet.rect, PowerUp.rect,
      CANVAS_WIDTH, CANVAS_HEIGHT, List.filterMap_cons, List.foldl_cons,
      List.foldl_nil]

/-- C8 witness: a game-over tick is an identity, and an empty run of a
fresh game has at most one submission. -/
theorem c8_witness :
    updateGame noInput 0 gOverW = gOverW ∧
    (runTicks gPlayW []).submissions.length ≤ 1 :=
  ⟨c8_theorem.1 noInput 0 gOverW (by decide),
   (c8_theorem.2.2 [] gPlayW rfl rfl).1⟩
